import Mathlib

/-!
Verification of the N3830 reference implementation (scoped_resource.h).

The C++ header defines a variadic RAII class template
scoped_resource<DELETER, R...> holding a disposer, a tuple of resource
values and a boolean armed flag m_bExecute, together with two factory
functions.  We embed it shallowly: the heterogeneous resource tuple
becomes a list of values of a sum type Val, the disposer becomes an
opaque identifier of type D, and an invocation of the disposer is
recorded as a DisposerCall event (the disposer identity together with
the positional argument list that apply_ns::apply hands to it).
Methods that mutate the object are state transformers returning the new
state and the list of disposer calls they perform; read accessors are
state transformers returning the (unchanged) state and the value read,
mirroring their C++ bodies which contain no assignment.
-/

/-- Values that can be bound as resources (a concrete universe standing
for the element types R... of the tuple). -/
inductive Val where
  | intV : Int → Val
  | strV : String → Val
  | boolV : Bool → Val
deriving DecidableEq

instance : Inhabited Val := ⟨Val.boolV false⟩

/-- A recorded invocation of a disposer: which disposer was called and
the positional arguments it received, in order. -/
structure DisposerCall (D : Type) where
  deleter : D
  args : List Val
deriving DecidableEq

/-- Embedding of apply_ns::Apply<N>::apply: the helper recursion that
unpacks a tuple into positional arguments.  Apply<N>::apply prepends
std::get<N-1>(t) to the accumulated argument pack and recurses with N-1;
Apply<0>::apply calls f on the accumulated pack. -/
def apply_ns.ApplyAux : Nat → List Val → List Val → List Val
  | 0, _, a => a
  | Nat.succ n, t, a => apply_ns.ApplyAux n t (t.getD n default :: a)

/-- Embedding of apply_ns::apply(f, t): call f with the elements of t
unpacked as positional arguments.  We record the call rather than run
the (opaque) disposer. -/
def apply_ns.apply {D : Type} (f : D) (t : List Val) : DisposerCall D :=
  ⟨f, apply_ns.ApplyAux t.length t []⟩

/-- Embedding of enum class invoke_it. -/
inductive invoke_it where
  | once
  | again
deriving DecidableEq, BEq

/-- Embedding of the state of scoped_resource<DELETER, R...>: the three
data members m_deleter, m_resource and m_bExecute. -/
structure scoped_resource (D : Type) where
  m_deleter : D
  m_resource : List Val
  m_bExecute : Bool
deriving DecidableEq

/-- Embedding of scoped_resource::invoke(strategy): if m_bExecute, the
deleter is applied to the resource tuple; afterwards m_bExecute is set
to (strategy == invoke_it::again) unconditionally.  Returns the new
state and the calls performed. -/
def scoped_resource.invoke {D : Type} (s : scoped_resource D)
    (strategy : invoke_it) : scoped_resource D × List (DisposerCall D) :=
  (⟨s.m_deleter, s.m_resource, strategy == invoke_it.again⟩,
   if s.m_bExecute then [apply_ns.apply s.m_deleter s.m_resource] else [])

/-- Embedding of the destructor ~scoped_resource(): invoke(invoke_it::once).
Only the calls matter, the object is gone afterwards. -/
def scoped_resource.destruct {D : Type} (s : scoped_resource D) :
    List (DisposerCall D) :=
  (s.invoke invoke_it.once).2

/-- Embedding of scoped_resource::release(): sets m_bExecute to false and
returns std::get<0>(std::tuple_cat(m_resource, std::tuple<bool>\x7b\x7d)),
i.e. the first resource value, or a default-initialized bool (false)
when the binding holds zero resources. -/
def scoped_resource.release {D : Type} (s : scoped_resource D) :
    scoped_resource D × Val :=
  (⟨s.m_deleter, s.m_resource, false⟩,
   (s.m_resource ++ [Val.boolV false]).getD 0 default)

/-- Embedding of scoped_resource::release_all(): sets m_bExecute to false
and returns the whole resource tuple. -/
def scoped_resource.release_all {D : Type} (s : scoped_resource D) :
    scoped_resource D × List Val :=
  (⟨s.m_deleter, s.m_resource, false⟩, s.m_resource)

/-- Embedding of scoped_resource::reset(resource...): first
invoke(invoke_it::again), then assign the new resource tuple.  The
deleter is not replaced. -/
def scoped_resource.reset {D : Type} (s : scoped_resource D)
    (r : List Val) : scoped_resource D × List (DisposerCall D) :=
  (⟨(s.invoke invoke_it.again).1.m_deleter, r,
    (s.invoke invoke_it.again).1.m_bExecute⟩,
   (s.invoke invoke_it.again).2)

/-- Embedding of the read accessor scoped_resource::get<n>(): returns a
reference to std::get<n>(m_resource); the object is not modified, which
the state-passing form makes explicit. -/
def scoped_resource.get {D : Type} (s : scoped_resource D) (n : Nat) :
    scoped_resource D × Val :=
  (s, s.m_resource.getD n default)

/-- Embedding of scoped_resource::get_deleter() (the const and non-const
overloads have the same body): returns a reference to m_deleter without
modifying the object. -/
def scoped_resource.get_deleter {D : Type} (s : scoped_resource D) :
    scoped_resource D × D :=
  (s, s.m_deleter)

/-- Embedding of the implicit conversion operator
operator first_type_or_void<R...>::type(): its body returns
std::get<0>(m_resource).  std::get<0> on an empty tuple is ill-formed
(and the target type is then void), so the read is partial: none models
the zero-resource case where no value can be produced. -/
def scoped_resource.conv {D : Type} (s : scoped_resource D) :
    scoped_resource D × Option Val :=
  (s, s.m_resource.get? 0)

/-- Embedding of the move constructor scoped_resource(scoped_resource&&):
the new object takes m_deleter, m_resource and m_bExecute from the
source, and the source's m_bExecute is set to false.  Returns
(new object, moved-from source). -/
def scoped_resource.moveConstruct {D : Type} (other : scoped_resource D) :
    scoped_resource D × scoped_resource D :=
  (⟨other.m_deleter, other.m_resource, other.m_bExecute⟩,
   ⟨other.m_deleter, other.m_resource, false⟩)

/-- Embedding of make_scoped_resource(t, r...): constructs with the
default armed flag bShouldRun = true. -/
def make_scoped_resource {D : Type} (t : D) (r : List Val) :
    scoped_resource D :=
  ⟨t, r, true⟩

/-- Embedding of make_scoped_resource_checked(t, r, invalid): constructs
scoped_resource(t, r, (r != invalid)). -/
def make_scoped_resource_checked {D : Type} (t : D) (r invalid : Val) :
    scoped_resource D :=
  ⟨t, [r], r != invalid⟩

/-- The operations an owner can perform on a live scoped_resource
(besides reading): explicit fire via invoke/operator() with a strategy,
release, release_all, and reset with new resource values. -/
inductive Op where
  | fire : invoke_it → Op
  | release : Op
  | release_all : Op
  | reset : List Val → Op
deriving DecidableEq

/-- One owner operation as a state transformer, discarding returned
values and keeping the disposer calls it performs. -/
def scoped_resource.step {D : Type} (s : scoped_resource D) :
    Op → scoped_resource D × List (DisposerCall D)
  | Op.fire strategy => s.invoke strategy
  | Op.release => ((s.release).1, [])
  | Op.release_all => ((s.release_all).1, [])
  | Op.reset r => s.reset r

/-- Run a sequence of owner operations, accumulating the disposer calls
in order. -/
def scoped_resource.run {D : Type} (s : scoped_resource D) :
    List Op → scoped_resource D × List (DisposerCall D)
  | [] => (s, [])
  | op :: ops =>
    ((scoped_resource.run (s.step op).1 ops).1,
     (s.step op).2 ++ (scoped_resource.run (s.step op).1 ops).2)

/-- The complete trace of disposer calls over the lifetime of an
instance: the calls made by the owner operations followed by the calls
made by the destructor at scope end. -/
def scoped_resource.lifetime {D : Type} (s : scoped_resource D)
    (ops : List Op) : List (DisposerCall D) :=
  (s.run ops).2 ++ (s.run ops).1.destruct

/-! ## Helper lemmas about the tuple-unpacking recursion -/

/-- apply_ns::Apply<n>::apply accumulates the first n tuple elements in
front of the already accumulated pack. -/
theorem ApplyAux_eq_take (t : List Val) :
    ∀ (n : Nat), n ≤ t.length → ∀ (a : List Val),
      apply_ns.ApplyAux n t a = t.take n ++ a := by
  intro n
  induction n with
  | zero =>
    intro _ a
    simp [apply_ns.ApplyAux]
  | succ k ih =>
    intro hle a
    have hk : k ≤ t.length := Nat.le_of_succ_le hle
    have hlt : k < t.length := Nat.lt_of_succ_le hle
    have htake : List.take (k + 1) t = List.take k t ++ [t.getD k default] := by
      rw [List.take_succ, List.getElem?_eq_getElem hlt]
      simp [List.getD, List.getElem?_eq_getElem hlt]
    rw [apply_ns.ApplyAux, ih hk, htake, List.append_assoc]
    rfl

/-- apply_ns::apply(f, t) performs a single call of f with exactly the
elements of t as positional arguments, in order. -/
theorem apply_spec {D : Type} (f : D) (t : List Val) :
    apply_ns.apply f t = ⟨f, t⟩ := by
  unfold apply_ns.apply
  rw [ApplyAux_eq_take t t.length (Nat.le_refl _) []]
  simp

/-- The strategy comparison in invoke, evaluated at invoke_it::once. -/
theorem once_beq_again : (invoke_it.once == invoke_it.again) = false := by
  decide

/-- The strategy comparison in invoke, evaluated at invoke_it::again. -/
theorem again_beq_again : (invoke_it.again == invoke_it.again) = true := by
  decide

/-- A disarmed instance subjected only to fire(once) operations stays
unchanged and performs no disposer call. -/
theorem run_disarmed {D : Type} (ops : List Op) :
    ∀ (dl : D) (r : List Val),
      (∀ op ∈ ops, op = Op.fire invoke_it.once) →
      scoped_resource.run ⟨dl, r, false⟩ ops = (⟨dl, r, false⟩, []) := by
  induction ops with
  | nil =>
    intro dl r _
    rfl
  | cons op ops ih =>
    intro dl r hops
    have hop : op = Op.fire invoke_it.once := hops op (by simp)
    subst hop
    have hrest : ∀ o ∈ ops, o = Op.fire invoke_it.once := by
      intro o ho
      exact hops o (by simp [ho])
    simp [scoped_resource.run, scoped_resource.step, scoped_resource.invoke,
          once_beq_again, ih dl r hrest]

/-! ## Claims -/

/-- Claim C3: make_scoped_resource_checked(d, r, invalid) returns an
instance that is armed exactly when r differs from invalid, and at
scope exit with no intervening operations the disposer is invoked with
r exactly when r differs from invalid. -/
theorem C3_checked_factory {D : Type} (d : D) (r invalid : Val) :
    ((make_scoped_resource_checked d r invalid).m_bExecute = true ↔ r ≠ invalid) ∧
    (make_scoped_resource_checked d r invalid).destruct
      = if r = invalid then [] else [⟨d, [r]⟩] := by
  constructor
  · simp [make_scoped_resource_checked]
  · by_cases h : r = invalid
    · simp [make_scoped_resource_checked, scoped_resource.destruct,
            scoped_resource.invoke, h]
    · simp [make_scoped_resource_checked, scoped_resource.destruct,
            scoped_resource.invoke, h, apply_spec]

/-- Claim C4: reset(r) first invokes the disposer with the old resource
values when the instance is armed (and invokes nothing when disarmed),
then overwrites the resource tuple with r while keeping the disposer;
on return the instance is armed, and a subsequent scope-end firing
invokes the disposer with the new values r. -/
theorem C4_reset_semantics {D : Type} (s : scoped_resource D) (r : List Val) :
    (s.reset r).2
      = (if s.m_bExecute then [⟨s.m_deleter, s.m_resource⟩] else []) ∧
    (s.reset r).1.m_resource = r ∧
    (s.reset r).1.m_deleter = s.m_deleter ∧
    (s.reset r).1.m_bExecute = true ∧
    (s.reset r).1.destruct = [⟨s.m_deleter, r⟩] := by
  refine ⟨?_, rfl, rfl, ?_, ?_⟩
  · by_cases h : s.m_bExecute <;>
      simp [scoped_resource.reset, scoped_resource.invoke, h, apply_spec]
  · simp [scoped_resource.reset, scoped_resource.invoke, again_beq_again]
  · simp [scoped_resource.reset, scoped_resource.destruct,
          scoped_resource.invoke, again_beq_again, apply_spec]

/-- Claim C5: release() and release_all() disarm the instance without
invoking the disposer and leave the resource tuple (and the disposer)
unchanged; release() returns the 0-th resource value, or a
default-initialized bool (false) for a zero-resource binding;
release_all() returns the full resource tuple; and after either call,
destruction at scope end fires nothing. -/
theorem C5_release_disarms {D : Type} (s : scoped_resource D) :
    (s.release).1.m_deleter = s.m_deleter ∧
    (s.release).1.m_resource = s.m_resource ∧
    (s.release).1.m_bExecute = false ∧
    (s.release_all).1.m_deleter = s.m_deleter ∧
    (s.release_all).1.m_resource = s.m_resource ∧
    (s.release_all).1.m_bExecute = false ∧
    (s.release_all).2 = s.m_resource ∧
    s.step Op.release = ((s.release).1, []) ∧
    s.step Op.release_all = ((s.release_all).1, []) ∧
    (s.release).1.destruct = [] ∧
    (s.release_all).1.destruct = [] ∧
    (∀ x t, s.m_resource = x :: t → (s.release).2 = x) ∧
    (s.m_resource = [] → (s.release).2 = Val.boolV false) := by
  refine ⟨rfl, rfl, rfl, rfl, rfl, rfl, rfl, rfl, rfl, ?_, ?_, ?_, ?_⟩
  · simp [scoped_resource.release, scoped_resource.destruct,
          scoped_resource.invoke]
  · simp [scoped_resource.release_all, scoped_resource.destruct,
          scoped_resource.invoke]
  · intro x t h
    simp [scoped_resource.release, h]
  · intro h
    simp [scoped_resource.release, h]

/-- Witness for C5 at concrete inputs: releasing a one-resource binding
over 5 yields 5, and releasing a zero-resource binding yields false. -/
theorem C5_witness :
    (scoped_resource.release
        (⟨"d", [Val.intV 5], true⟩ : scoped_resource String)).2 = Val.intV 5 ∧
    (scoped_resource.release
        (⟨"d", [], true⟩ : scoped_resource String)).2 = Val.boolV false := by
  constructor
  · exact (C5_release_disarms
        (⟨"d", [Val.intV 5], true⟩ : scoped_resource String)
      ).2.2.2.2.2.2.2.2.2.2.2.1 (Val.intV 5) [] rfl
  · exact (C5_release_disarms
        (⟨"d", [], true⟩ : scoped_resource String)
      ).2.2.2.2.2.2.2.2.2.2.2.2 rfl

/-- Claim C9: make_scoped_resource_checked(d, r, invalid) always stores
r as the bound resource regardless of the sentinel comparison: get()
returns r and release() returns r. -/
theorem C9_checked_stores_resource {D : Type} (d : D) (r invalid : Val) :
    (make_scoped_resource_checked d r invalid).m_resource = [r] ∧
    ((make_scoped_resource_checked d r invalid).get 0).2 = r ∧
    ((make_scoped_resource_checked d r invalid).release).2 = r :=
  ⟨rfl, rfl, rfl⟩

/-- Claim C10: the read accessors get, get_deleter and the implicit
conversion operator leave the observable state (armed flag, disposer,
resources) unchanged. -/
theorem C10_read_accessors_pure {D : Type} (s : scoped_resource D) (n : Nat) :
    (s.get n).1 = s ∧ (s.get_deleter).1 = s ∧ (s.conv).1 = s :=
  ⟨rfl, rfl, rfl⟩

/-- Claim C1 as stated is refuted: an owner that calls release (which is
neither a fire with strategy again nor a reset) obtains a lifetime with
zero disposer invocations rather than exactly one. -/
theorem C1_counterexample :
    scoped_resource.lifetime
      (⟨"d", [Val.intV 5], true⟩ : scoped_resource String) [Op.release]
      = [] := rfl

/-- Claim C1 (amended): for an instance constructed with the default
armed state whose owner performs only fire(once) operations (never
fire(again), reset, release or release_all), the disposer is invoked
exactly once over the lifetime, with the bound disposer and resource
values: at the first explicit fire if there is one, otherwise at
destruction. -/
theorem C1_single_fire {D : Type} (s : scoped_resource D) (ops : List Op)
    (harmed : s.m_bExecute = true)
    (hops : ∀ op ∈ ops, op = Op.fire invoke_it.once) :
    s.lifetime ops = [⟨s.m_deleter, s.m_resource⟩] := by
  obtain ⟨dl, r, b⟩ := s
  have hb : b = true := harmed
  subst hb
  cases ops with
  | nil =>
    simp [scoped_resource.lifetime, scoped_resource.run,
          scoped_resource.destruct, scoped_resource.invoke, apply_spec]
  | cons op ops =>
    have hop : op = Op.fire invoke_it.once := hops op (by simp)
    subst hop
    have hrest : ∀ o ∈ ops, o = Op.fire invoke_it.once := by
      intro o ho
      exact hops o (by simp [ho])
    simp [scoped_resource.lifetime, scoped_resource.run,
          scoped_resource.step, scoped_resource.invoke, once_beq_again,
          run_disarmed ops dl r hrest, scoped_resource.destruct, apply_spec]

/-- Witness for the amended C1 at a concrete input: one explicit
fire(once) on an armed one-resource binding yields exactly one call. -/
theorem C1_witness :
    scoped_resource.lifetime
      (⟨"d", [Val.intV 5], true⟩ : scoped_resource String)
      [Op.fire invoke_it.once]
      = [⟨"d", [Val.intV 5]⟩] :=
  C1_single_fire (⟨"d", [Val.intV 5], true⟩ : scoped_resource String)
    [Op.fire invoke_it.once] rfl (by decide)

/-- Claim C2 as stated is refuted: invoke with strategy again on a
disarmed instance performs no call but sets the armed flag to true,
so the flag is not still false after the call returns. -/
theorem C2_counterexample :
    (scoped_resource.invoke
        (⟨"d", [Val.intV 5], false⟩ : scoped_resource String)
        invoke_it.again).1.m_bExecute = true := rfl

/-- Claim C2 (amended): on an instance whose armed flag is false, invoke
performs no disposer call for either strategy; after invoke(once) the
flag is still false, but invoke(again) re-arms the instance; and the
flag stays false under every owner operation except reset and
fire(again). -/
theorem C2_disarmed_stays_quiet {D : Type} (s : scoped_resource D)
    (h : s.m_bExecute = false) :
    (∀ strategy, (s.invoke strategy).2 = []) ∧
    (s.invoke invoke_it.once).1.m_bExecute = false ∧
    (s.invoke invoke_it.again).1.m_bExecute = true ∧
    (∀ op : Op, (∀ r, op ≠ Op.reset r) → op ≠ Op.fire invoke_it.again →
      (s.step op).1.m_bExecute = false) := by
  refine ⟨?_, ?_, ?_, ?_⟩
  · intro strategy
    simp [scoped_resource.invoke, h]
  · simp [scoped_resource.invoke, once_beq_again]
  · simp [scoped_resource.invoke, again_beq_again]
  · intro op hr hf
    cases op with
    | fire strategy =>
      cases strategy with
      | once =>
        simp [scoped_resource.step, scoped_resource.invoke, once_beq_again]
      | again => exact absurd rfl hf
    | release => simp [scoped_resource.step, scoped_resource.release]
    | release_all =>
      simp [scoped_resource.step, scoped_resource.release_all]
    | reset r => exact absurd rfl (hr r)

/-- Witness for the amended C2 at a concrete input: a disarmed instance
fired with strategy once performs no call, and release keeps the flag
false. -/
theorem C2_witness :
    (scoped_resource.invoke
        (⟨"d", [Val.intV 5], false⟩ : scoped_resource String)
        invoke_it.once).2 = [] ∧
    (scoped_resource.step
        (⟨"d", [Val.intV 5], false⟩ : scoped_resource String)
        Op.release).1.m_bExecute = false := by
  constructor
  · exact (C2_disarmed_stays_quiet
        (⟨"d", [Val.intV 5], false⟩ : scoped_resource String) rfl).1
      invoke_it.once
  · exact (C2_disarmed_stays_quiet
        (⟨"d", [Val.intV 5], false⟩ : scoped_resource String) rfl).2.2.2
      Op.release (fun r h => nomatch h) (fun h => nomatch h)

/-- Claim C6: move construction from an armed instance transfers the
disposer and resource tuple to the new object and disarms the source:
destroying the source afterwards invokes nothing, and destroying the
new object invokes the disposer exactly once with the original
values. -/
theorem C6_move_disarms_source {D : Type} (x : scoped_resource D)
    (h : x.m_bExecute = true) :
    (x.moveConstruct).1.m_deleter = x.m_deleter ∧
    (x.moveConstruct).1.m_resource = x.m_resource ∧
    (x.moveConstruct).2.m_bExecute = false ∧
    (x.moveConstruct).2.destruct = [] ∧
    (x.moveConstruct).1.destruct = [⟨x.m_deleter, x.m_resource⟩] := by
  refine ⟨rfl, rfl, rfl, ?_, ?_⟩
  · simp [scoped_resource.moveConstruct, scoped_resource.destruct,
          scoped_resource.invoke]
  · simp [scoped_resource.moveConstruct, scoped_resource.destruct,
          scoped_resource.invoke, h, apply_spec]

/-- Witness for C6 at a concrete input: after moving out of an armed
binding over 3, the source destructs silently and the target destructs
with one call carrying the original values. -/
theorem C6_witness :
    (scoped_resource.moveConstruct
        (⟨"d", [Val.intV 3], true⟩ : scoped_resource String)).2.destruct
      = [] ∧
    (scoped_resource.moveConstruct
        (⟨"d", [Val.intV 3], true⟩ : scoped_resource String)).1.destruct
      = [⟨"d", [Val.intV 3]⟩] := by
  constructor
  · exact (C6_move_disarms_source
        (⟨"d", [Val.intV 3], true⟩ : scoped_resource String) rfl).2.2.2.1
  · exact (C6_move_disarms_source
        (⟨"d", [Val.intV 3], true⟩ : scoped_resource String) rfl).2.2.2.2

/-- Claim C7: whenever an armed instance fires, via explicit invoke with
either strategy or via the destructor, the disposer receives exactly one
call whose positional arguments are the bound resource values in order;
in particular the call has as many arguments as there are resources, so
a zero-resource binding produces a single nullary call. -/
theorem C7_fire_unpacks_in_order {D : Type} (s : scoped_resource D)
    (strategy : invoke_it) (h : s.m_bExecute = true) :
    (s.invoke strategy).2 = [⟨s.m_deleter, s.m_resource⟩] ∧
    s.destruct = [⟨s.m_deleter, s.m_resource⟩] ∧
    (apply_ns.apply s.m_deleter s.m_resource).args.length
      = s.m_resource.length := by
  refine ⟨?_, ?_, ?_⟩ <;>
    simp [scoped_resource.invoke, scoped_resource.destruct, h, apply_spec]

/-- Witness for C7 at concrete inputs: the binding (7, "bye") yields
exactly the two-argument call f(7, "bye"), and a zero-resource binding
yields a single nullary call. -/
theorem C7_witness :
    (scoped_resource.invoke
        (⟨"f", [Val.intV 7, Val.strV "bye"], true⟩ : scoped_resource String)
        invoke_it.once).2
      = [⟨"f", [Val.intV 7, Val.strV "bye"]⟩] ∧
    scoped_resource.destruct (⟨"g", [], true⟩ : scoped_resource String)
      = [⟨"g", []⟩] := by
  constructor
  · exact (C7_fire_unpacks_in_order
        (⟨"f", [Val.intV 7, Val.strV "bye"], true⟩ : scoped_resource String)
        invoke_it.once rfl).1
  · exact (C7_fire_unpacks_in_order
        (⟨"g", [], true⟩ : scoped_resource String)
        invoke_it.once rfl).2.1

/-- Claim C8 as stated is refuted for a zero-resource binding: the
conversion operator reads std::get<0> of an empty tuple, which produces
no value at all (its instantiation is ill-formed), rather than a
trivial placeholder value. -/
theorem C8_counterexample :
    (scoped_resource.conv
        (⟨"d", [], true⟩ : scoped_resource String)).2 = none := rfl

/-- Claim C8 (amended): for every binding with at least one resource,
the implicit-conversion accessor yields a copy of the 0-th resource
value and does not modify the instance; for a zero-resource binding the
conversion target type is the placeholder type void and no value is
produced. -/
theorem C8_conversion_yields_first {D : Type} (s : scoped_resource D)
    (v : Val) (t : List Val) (h : s.m_resource = v :: t) :
    (s.conv).2 = some v ∧ (s.conv).1 = s := by
  refine ⟨?_, rfl⟩
  simp [scoped_resource.conv, h]

/-- Witness for the amended C8 at a concrete input: a single-resource
binding over 9 converts to 9. -/
theorem C8_witness :
    (scoped_resource.conv
        (⟨"d", [Val.intV 9], true⟩ : scoped_resource String)).2
      = some (Val.intV 9) :=
  (C8_conversion_yields_first
    (⟨"d", [Val.intV 9], true⟩ : scoped_resource String)
    (Val.intV 9) [] rfl).1
